import Mathlib

/-!
Verification development for the openclaw commander (Rust crate under
src/commander).  The supervisor control flow of
AgentSupervisor::run / spawn_and_monitor / wait_for_start (agent.rs) is
embedded as an explicit state machine driven by a trace of environment
events; registry operations (state.rs, agent.rs update_status and
spawn_agent registration) and the provisioning filesystem paths
(agent.rs ensure_config, main.rs spawn_agent) are embedded as pure
functions.
-/

/-- state.rs: enum AgentCommand { Stop, Restart, Start }. -/
inductive AgentCommand
  | stop
  | restart
  | start
deriving DecidableEq, Repr

/-- state.rs: enum AgentStatus { Starting, Running, Stopping, Stopped, Restarting, Failed }. -/
inductive AgentStatus
  | starting
  | running
  | stopping
  | stopped
  | restarting
  | failed
deriving DecidableEq, Repr

/-- Where a wait_for_start call returns to when it yields true
(agent.rs lines 111, 247, 147 respectively): fall through to the spawn
of the same loop iteration, return Ok(true) into the watchdog logic, or
fall out of the backoff select back to the top of the loop. -/
inductive Resume
  | toSpawn
  | toWatchdog
  | toLoopTop
deriving DecidableEq, Repr

/-- Control location inside AgentSupervisor::run / spawn_and_monitor /
wait_for_start (agent.rs lines 100-271). -/
inductive Phase
  /-- top of the run loop, about to try_recv (line 106) -/
  | loopTop
  /-- about to provision and spawn (lines 166-194) -/
  | spawning
  /-- in the monitor select with a live child of this pid (lines 219-269) -/
  | monitor (pid : Nat)
  /-- about to execute the watchdog logic (lines 128-138) -/
  | watchdog
  /-- in the backoff select, sleep racing recv (lines 141-153) -/
  | backoffWait
  /-- blocked in wait_for_start (lines 157-164) -/
  | waitForStart (k : Resume)
  /-- the run loop has been left: the supervisor task is finished -/
  | done
deriving DecidableEq, Repr

/-- One environment event, resolving one await / decision point of the
supervisor.  `tryRecv none` covers both an empty and a disconnected
queue at the non-blocking check; `recvCmd none` is rx.recv() returning
None, i.e. the command channel is closed; `elapsedGt60 b` is the value
of `last_restart.elapsed() > Duration::from_secs(60)` read at the
watchdog (line 129); `sleepDone` is the backoff sleep winning the
select. -/
inductive Ev
  | tryRecv (c : Option AgentCommand)
  | spawnOk (pid : Nat)
  | spawnErr
  | exited (success : Bool)
  | recvCmd (c : Option AgentCommand)
  | elapsedGt60 (b : Bool)
  | sleepDone
deriving DecidableEq, Repr

/-- Observable effects of the supervisor: `statusUpdate st p` is a call
update_status(st, p) (agent.rs lines 273-279); `waitStart n` is entry
into the backoff select with a scheduled sleep of n seconds;
`spawnAttempt` is entry into spawn_and_monitor (line 117/176). -/
inductive Obs
  | statusUpdate (st : AgentStatus) (pid : Option Nat)
  | waitStart (secs : Nat)
  | spawnAttempt
deriving DecidableEq, Repr

/-- The supervisor-relevant mutable state: the control location, the
local restart_count of run (line 101), and the status/pid fields of
this agent's registry entry as last written by update_status. -/
structure SupM where
  phase : Phase
  count : Nat
  status : AgentStatus
  pid : Option Nat
deriving DecidableEq, Repr

/-- One step of the supervisor control flow on one environment event.
Each branch mirrors one arm of the Rust source:
 * loopTop/tryRecv: agent.rs 106-115 (only a Stop is acted on; any
   other result falls through to the spawn at line 117);
 * spawning: lines 166-197 (Err aborts the attempt and reaches the
   watchdog via run's match at 117-126; Ok publishes Running with the
   pid and enters the monitor loop);
 * monitor: lines 219-269 (clean exit publishes Stopped and returns
   Ok(false) so run breaks; crash publishes Failed and returns Ok(true)
   into the watchdog; Stop kills, publishes Stopping then Stopped and
   blocks in wait_for_start whose true-result is Ok(true) into the
   watchdog; Restart kills and returns Ok(true); Start is ignored;
   channel closure kills and returns Ok(false));
 * watchdog: lines 128-142 (reset-if-stale then increment of
   restart_count, publish Restarting, announce min(count*2,30));
 * backoffWait: lines 141-153 (sleep completion re-enters the loop;
   Stop publishes Stopped and blocks in wait_for_start returning to the
   loop top; any other command completes the select, dropping the
   sleep, and re-enters the loop; channel closure breaks);
 * waitForStart: lines 157-164 (Start/Restart return true to the
   stored resume point, Stop is skipped, channel closure returns false,
   which makes every caller leave run).
An event that does not match the current location leaves the state
unchanged (it resolves an await the supervisor is not blocked on). -/
def step (s : SupM) (e : Ev) : SupM × List Obs :=
  match s.phase, e with
  | .loopTop, .tryRecv (some .stop) =>
      ({ s with phase := .waitForStart .toSpawn, status := .stopped, pid := none },
       [.statusUpdate .stopped none])
  | .loopTop, .tryRecv _ =>
      ({ s with phase := .spawning }, [.spawnAttempt])
  | .spawning, .spawnOk pid =>
      ({ s with phase := .monitor pid, status := .running, pid := some pid },
       [.statusUpdate .running (some pid)])
  | .spawning, .spawnErr =>
      ({ s with phase := .watchdog }, [])
  | .monitor _, .exited true =>
      ({ s with phase := .done, status := .stopped, pid := none },
       [.statusUpdate .stopped none])
  | .monitor _, .exited false =>
      ({ s with phase := .watchdog, status := .failed, pid := none },
       [.statusUpdate .failed none])
  | .monitor pid, .recvCmd (some .stop) =>
      ({ s with phase := .waitForStart .toWatchdog, status := .stopped, pid := none },
       [.statusUpdate .stopping (some pid), .statusUpdate .stopped none])
  | .monitor _, .recvCmd (some .restart) =>
      ({ s with phase := .watchdog }, [])
  | .monitor _, .recvCmd (some .start) =>
      (s, [])
  | .monitor _, .recvCmd none =>
      ({ s with phase := .done }, [])
  | .watchdog, .elapsedGt60 b =>
      ({ s with phase := .backoffWait, count := (if b then 0 else s.count) + 1,
                status := .restarting, pid := none },
       [.statusUpdate .restarting none,
        .waitStart (min (((if b then 0 else s.count) + 1) * 2) 30)])
  | .backoffWait, .sleepDone =>
      ({ s with phase := .loopTop }, [])
  | .backoffWait, .recvCmd (some .stop) =>
      ({ s with phase := .waitForStart .toLoopTop, status := .stopped, pid := none },
       [.statusUpdate .stopped none])
  | .backoffWait, .recvCmd (some _) =>
      ({ s with phase := .loopTop }, [])
  | .backoffWait, .recvCmd none =>
      ({ s with phase := .done }, [])
  | .waitForStart _, .recvCmd (some .stop) =>
      (s, [])
  | .waitForStart .toSpawn, .recvCmd (some _) =>
      ({ s with phase := .spawning }, [.spawnAttempt])
  | .waitForStart .toWatchdog, .recvCmd (some _) =>
      ({ s with phase := .watchdog }, [])
  | .waitForStart .toLoopTop, .recvCmd (some _) =>
      ({ s with phase := .loopTop }, [])
  | .waitForStart _, .recvCmd none =>
      ({ s with phase := .done }, [])
  | _, _ => (s, [])

/-- Run the supervisor over a trace of environment events, collecting
the observable effects in order. -/
def run (s : SupM) : List Ev → SupM × List Obs
  | [] => (s, [])
  | e :: es =>
      let p := step s e
      let q := run p.1 es
      (q.1, p.2 ++ q.2)

/-- State at supervisor start: AgentSupervisor::run begins at the loop
top with restart_count = 0 (line 101), after spawn_agent registered the
entry with status Starting and pid None (agent.rs lines 292-307). -/
def initSup : SupM :=
  { phase := .loopTop, count := 0, status := .starting, pid := none }

/-- The announced backoff delays, in order, of an observation trace. -/
def waitsOf (l : List Obs) : List Nat :=
  l.filterMap fun o =>
    match o with
    | .waitStart n => some n
    | _ => none

/-- Events that make wait_for_start return true (a Start or Restart
command being received). -/
def isStartEv : Ev → Bool
  | .recvCmd (some .start) => true
  | .recvCmd (some .restart) => true
  | _ => false

theorem run_append (s : SupM) (es₁ es₂ : List Ev) :
    run s (es₁ ++ es₂)
      = ((run (run s es₁).1 es₂).1, (run s es₁).2 ++ (run (run s es₁).1 es₂).2) := by
  induction es₁ generalizing s with
  | nil => simp [run]
  | cons e es ih => simp [run, ih, List.append_assoc]

theorem step_done (s : SupM) (e : Ev) (h : s.phase = .done) : step s e = (s, []) := by
  obtain ⟨ph, c, st, p⟩ := s
  simp only at h
  subst h
  cases e with
  | tryRecv c => rcases c with _ | c <;> [rfl; (cases c <;> rfl)]
  | recvCmd c => rcases c with _ | c <;> [rfl; (cases c <;> rfl)]
  | exited b => cases b <;> rfl
  | elapsedGt60 b => cases b <;> rfl
  | _ => rfl

theorem run_done (s : SupM) (es : List Ev) (h : s.phase = .done) : run s es = (s, []) := by
  induction es with
  | nil => rfl
  | cons e es ih => simp [run, step_done s e h, ih]

theorem step_watchdog (s : SupM) (b : Bool) (h : s.phase = .watchdog) :
    step s (.elapsedGt60 b)
      = ({ s with phase := .backoffWait, count := (if b then 0 else s.count) + 1,
                  status := .restarting, pid := none },
         [.statusUpdate .restarting none,
          .waitStart (min (((if b then 0 else s.count) + 1) * 2) 30)]) := by
  obtain ⟨ph, c, st, p⟩ := s
  simp only at h
  subst h
  rfl

/-- A crash trace: spawn, crash within 60 seconds of the last restart
(so the elapsed-check reads false), sleep out the backoff, three times
over.  The trailing cycle leaves the machine right after the third
watchdog decision. -/
def threeCrashTrace : List Ev :=
  [.tryRecv none, .spawnOk 1, .exited false, .elapsedGt60 false, .sleepDone,
   .tryRecv none, .spawnOk 1, .exited false, .elapsedGt60 false, .sleepDone,
   .tryRecv none, .spawnOk 1, .exited false, .elapsedGt60 false]

/-- C1: whenever the watchdog decides the next delay, that delay is
min(restart_count * 2, 30) seconds, where restart_count is first reset
to zero when more than 60 seconds have elapsed since the previous
restart and is then incremented; three crashes within 10 seconds give
the delays 2s, 4s, 6s. -/
theorem backoff_delay_law :
    (∀ (es : List Ev) (b : Bool),
        (run initSup es).1.phase = .watchdog →
        (run initSup (es ++ [.elapsedGt60 b])).2
            = (run initSup es).2
              ++ [.statusUpdate .restarting none,
                  .waitStart (min (((if b then 0 else (run initSup es).1.count) + 1) * 2) 30)]
          ∧ (run initSup (es ++ [.elapsedGt60 b])).1.count
            = (if b then 0 else (run initSup es).1.count) + 1)
    ∧ waitsOf (run initSup threeCrashTrace).2 = [2, 4, 6] := by
  constructor
  · intro es b h
    have happ := run_append initSup es [.elapsedGt60 b]
    have hstep := step_watchdog (run initSup es).1 b h
    constructor
    · rw [happ]
      simp [run, hstep]
    · rw [happ]
      simp [run, hstep]
  · rfl

/-- Closed instance of the universal part of backoff_delay_law, at the
state reached after one spawn and one crash. -/
theorem backoff_delay_law_witness :
    (run initSup ([.tryRecv none, .spawnOk 0, .exited false] ++ [.elapsedGt60 false])).2
        = (run initSup [.tryRecv none, .spawnOk 0, .exited false]).2
          ++ [.statusUpdate .restarting none,
              .waitStart (min (((if false then 0
                  else (run initSup [.tryRecv none, .spawnOk 0, .exited false]).1.count) + 1) * 2) 30)]
      ∧ (run initSup ([.tryRecv none, .spawnOk 0, .exited false] ++ [.elapsedGt60 false])).1.count
        = (if false then 0
            else (run initSup [.tryRecv none, .spawnOk 0, .exited false]).1.count) + 1 :=
  backoff_delay_law.1 [.tryRecv none, .spawnOk 0, .exited false] false (by decide)

/-- C2, counterexample: a worker is spawned (pid 7) and a Restart
command arrives while it is Running.  The supervisor does not bypass
the backoff: the whole observation trace shows exactly one spawn
attempt (the initial one), then Running, then Restarting with a
2-second backoff wait pending, and the machine sits in the backoff
select rather than in a new spawn attempt. -/
theorem restart_backoff_not_bypassed :
    (run initSup [.tryRecv none, .spawnOk 7, .recvCmd (some .restart),
                  .elapsedGt60 false]).1.phase = .backoffWait
    ∧ (run initSup [.tryRecv none, .spawnOk 7, .recvCmd (some .restart),
                    .elapsedGt60 false]).2
      = [.spawnAttempt, .statusUpdate .running (some 7),
         .statusUpdate .restarting none, .waitStart 2] := by
  constructor <;> rfl

/-- C2, amended: a Restart received while Running kills the worker and
awaits its exit with no status published at that point (in particular
the status never passes through Stopped), and the supervisor proceeds
to the watchdog: the status becomes Restarting and a backoff wait of
min(restart_count * 2, 30) seconds is scheduled before the next spawn
attempt, rather than the delay being bypassed. -/
theorem restart_goes_through_watchdog :
    ∀ (s : SupM) (pid : Nat), s.phase = .monitor pid →
      step s (.recvCmd (some .restart)) = ({ s with phase := .watchdog }, [])
      ∧ ∀ b : Bool,
          (run s [.recvCmd (some .restart), .elapsedGt60 b]).2
              = [.statusUpdate .restarting none,
                 .waitStart (min (((if b then 0 else s.count) + 1) * 2) 30)]
            ∧ (run s [.recvCmd (some .restart), .elapsedGt60 b]).1.phase = .backoffWait := by
  intro s pid h
  obtain ⟨ph, c, st, p⟩ := s
  simp only at h
  subst h
  exact ⟨rfl, fun b => by cases b <;> exact ⟨rfl, rfl⟩⟩

/-- Closed instance of restart_goes_through_watchdog at a concrete
Running state. -/
theorem restart_goes_through_watchdog_witness :
    step ⟨.monitor 7, 0, .running, some 7⟩ (.recvCmd (some .restart))
        = ({ (⟨.monitor 7, 0, .running, some 7⟩ : SupM) with phase := .watchdog }, [])
      ∧ ∀ b : Bool,
          (run ⟨.monitor 7, 0, .running, some 7⟩ [.recvCmd (some .restart), .elapsedGt60 b]).2
              = [.statusUpdate .restarting none,
                 .waitStart (min (((if b then 0
                     else (⟨.monitor 7, 0, .running, some 7⟩ : SupM).count) + 1) * 2) 30)]
            ∧ (run ⟨.monitor 7, 0, .running, some 7⟩
                [.recvCmd (some .restart), .elapsedGt60 b]).1.phase = .backoffWait :=
  restart_goes_through_watchdog ⟨.monitor 7, 0, .running, some 7⟩ 7 (by decide)

theorem step_waitForStart (s : SupM) (k : Resume) (e : Ev) (h : s.phase = .waitForStart k)
    (hne : isStartEv e = false) :
    (e = .recvCmd none ∧ step s e = ({ s with phase := .done }, []))
    ∨ step s e = (s, []) := by
  obtain ⟨ph, n, st, p⟩ := s
  simp only at h
  subst h
  cases e with
  | tryRecv c =>
    right
    rcases c with _ | c
    · cases k <;> rfl
    · cases c <;> cases k <;> rfl
  | spawnOk pid => right; cases k <;> rfl
  | spawnErr => right; cases k <;> rfl
  | exited b => right; cases b <;> cases k <;> rfl
  | recvCmd c =>
    rcases c with _ | c
    · exact Or.inl ⟨rfl, by cases k <;> rfl⟩
    · right
      cases c with
      | stop => cases k <;> rfl
      | start => simp [isStartEv] at hne
      | restart => simp [isStartEv] at hne
  | elapsedGt60 b => right; cases b <;> cases k <;> rfl
  | sleepDone => right; cases k <;> rfl

theorem waitForStart_frozen (es : List Ev) :
    ∀ (s : SupM) (k : Resume), s.phase = .waitForStart k →
      (∀ e ∈ es, isStartEv e = false) →
      (run s es).2 = []
      ∧ ((run s es).1.phase = .waitForStart k ∨ (run s es).1.phase = .done) := by
  induction es with
  | nil => intro s k h _; exact ⟨rfl, Or.inl h⟩
  | cons e es ih =>
    intro s k h hne
    have he : isStartEv e = false := hne e (List.mem_cons_self e es)
    have hes : ∀ e' ∈ es, isStartEv e' = false :=
      fun e' h' => hne e' (List.mem_cons_of_mem e h')
    rcases step_waitForStart s k e h he with ⟨_, hstep⟩ | hstep
    · have hdone : ({ s with phase := Phase.done } : SupM).phase = .done := rfl
      simp [run, hstep, run_done _ es hdone]
    · have := ih s k h hes
      simp [run, hstep]
      exact this

/-- C3: a Stop received while Running kills the worker, publishes
Stopping (pid kept) then Stopped (pid cleared), and the supervisor then
performs no spawn attempt until a Start or Restart command arrives. -/
theorem stop_while_running :
    (∀ (s : SupM) (pid : Nat), s.phase = .monitor pid →
        step s (.recvCmd (some .stop))
          = ({ s with phase := .waitForStart .toWatchdog, status := .stopped, pid := none },
             [.statusUpdate .stopping (some pid), .statusUpdate .stopped none]))
    ∧ (∀ (s : SupM) (pid : Nat) (es : List Ev), s.phase = .monitor pid →
        (∀ e ∈ es, isStartEv e = false) →
        Obs.spawnAttempt ∉ (run s (Ev.recvCmd (some .stop) :: es)).2) := by
  have hstep : ∀ (s : SupM) (pid : Nat), s.phase = .monitor pid →
      step s (.recvCmd (some .stop))
        = ({ s with phase := .waitForStart .toWatchdog, status := .stopped, pid := none },
           [.statusUpdate .stopping (some pid), .statusUpdate .stopped none]) := by
    intro s pid h
    obtain ⟨ph, n, st, p⟩ := s
    simp only at h
    subst h
    rfl
  refine ⟨hstep, ?_⟩
  intro s pid es h hne
  obtain ⟨ph, n, st, p⟩ := s
  simp only at h
  subst h
  have hph : (SupM.mk (.waitForStart .toWatchdog) n .stopped none).phase
      = .waitForStart .toWatchdog := rfl
  have hfro := waitForStart_frozen es _ _ hph hne
  have hrun : run ⟨.monitor pid, n, st, p⟩ (Ev.recvCmd (some .stop) :: es)
      = ((run ⟨.waitForStart .toWatchdog, n, .stopped, none⟩ es).1,
         [Obs.statusUpdate .stopping (some pid), Obs.statusUpdate .stopped none]
           ++ (run ⟨.waitForStart .toWatchdog, n, .stopped, none⟩ es).2) := rfl
  rw [hrun, hfro.1]
  simp

/-- Closed instance of stop_while_running at a concrete Running state
with the empty post-Stop trace. -/
theorem stop_while_running_witness :
    step ⟨.monitor 9, 1, .running, some 9⟩ (.recvCmd (some .stop))
        = ({ (⟨.monitor 9, 1, .running, some 9⟩ : SupM) with
              phase := .waitForStart .toWatchdog, status := .stopped, pid := none },
           [.statusUpdate .stopping (some 9), .statusUpdate .stopped none])
      ∧ Obs.spawnAttempt ∉
          (run ⟨.monitor 9, 1, .running, some 9⟩ [Ev.recvCmd (some .stop)]).2 :=
  ⟨stop_while_running.1 ⟨.monitor 9, 1, .running, some 9⟩ 9 (by decide),
   stop_while_running.2 ⟨.monitor 9, 1, .running, some 9⟩ 9 [] (by decide)
     (by intro e h; cases h)⟩

/-- C4, counterexample: a worker is spawned (pid 3) and exits with a
success status.  The supervisor task terminates (phase done) although
the command channel was never closed (no recvCmd-none event occurred),
and a Start command arriving afterwards never leads to a spawn
attempt. -/
theorem clean_exit_terminates_supervisor :
    (run initSup [.tryRecv none, .spawnOk 3, .exited true]).1.phase = .done
    ∧ (∀ e ∈ ([.tryRecv none, .spawnOk 3, .exited true] : List Ev), e ≠ .recvCmd none)
    ∧ Obs.spawnAttempt ∉
        (run (run initSup [.tryRecv none, .spawnOk 3, .exited true]).1
          [.recvCmd (some .start), .tryRecv none, .spawnOk 4]).2 := by
  decide

/-- Events on which the supervisor task may end: closure of the
command channel, or the worker exiting with a success status. -/
def isCloseOrCleanExit : Ev → Bool
  | .recvCmd none => true
  | .exited true => true
  | _ => false

/-- C4, amended: the supervisor task terminates only when its command
channel is closed or when the worker exits with a success status; from
the Stopped state reached via a Stop command (any of the three
wait_for_start call sites) a subsequent Start or Restart command leads
to a new spawn attempt. -/
theorem termination_conditions :
    (∀ (s : SupM) (e : Ev), s.phase ≠ .done → (step s e).1.phase = .done →
        isCloseOrCleanExit e = true)
    ∧ (∀ s : SupM, s.phase = .waitForStart .toSpawn →
        Obs.spawnAttempt ∈ (run s [.recvCmd (some .start)]).2)
    ∧ (∀ s : SupM, s.phase = .waitForStart .toWatchdog →
        Obs.spawnAttempt ∈
          (run s [.recvCmd (some .start), .elapsedGt60 false, .sleepDone, .tryRecv none]).2)
    ∧ (∀ s : SupM, s.phase = .waitForStart .toLoopTop →
        Obs.spawnAttempt ∈ (run s [.recvCmd (some .restart), .tryRecv none]).2) := by
  refine ⟨?_, ?_, ?_, ?_⟩
  · intro s e h1 h2
    obtain ⟨ph, n, st, p⟩ := s
    cases e with
    | tryRecv c =>
      exfalso
      rcases c with _ | c
      · cases ph <;> simp_all [step]
      · cases c <;> cases ph <;> simp_all [step]
    | spawnOk pid => exfalso; cases ph <;> simp_all [step]
    | spawnErr => exfalso; cases ph <;> simp_all [step]
    | exited b =>
      cases b
      · exfalso; cases ph <;> simp_all [step]
      · rfl
    | recvCmd c =>
      rcases c with _ | c
      · rfl
      · exfalso
        rcases ph with _ | _ | pid | _ | _ | k | _
        · cases c <;> simp_all [step]
        · cases c <;> simp_all [step]
        · cases c <;> simp_all [step]
        · cases c <;> simp_all [step]
        · cases c <;> simp_all [step]
        · cases k <;> cases c <;> simp_all [step]
        · cases c <;> simp_all [step]
    | elapsedGt60 b => exfalso; cases b <;> cases ph <;> simp_all [step]
    | sleepDone => exfalso; cases ph <;> simp_all [step]
  · intro s h
    obtain ⟨ph, n, st, p⟩ := s
    simp only at h
    subst h
    simp [run, step]
  · intro s h
    obtain ⟨ph, n, st, p⟩ := s
    simp only at h
    subst h
    simp [run, step]
  · intro s h
    obtain ⟨ph, n, st, p⟩ := s
    simp only at h
    subst h
    simp [run, step]

/-- Closed instance of termination_conditions: the clean-exit
termination case at a concrete Running state, and the Start-resume
case at a concrete waiting state. -/
theorem termination_conditions_witness :
    isCloseOrCleanExit (.exited true) = true
    ∧ Obs.spawnAttempt ∈
        (run ⟨.waitForStart .toSpawn, 2, .stopped, none⟩ [.recvCmd (some .start)]).2 :=
  ⟨termination_conditions.1 ⟨.monitor 3, 0, .running, some 3⟩ (.exited true)
      (by decide) (by decide),
   termination_conditions.2.1 ⟨.waitForStart .toSpawn, 2, .stopped, none⟩ (by decide)⟩

/-- C6: the backoff wait is interruptible.  A Stop arriving during the
wait immediately publishes Stopped with pid cleared and no spawn
attempt happens until a Start or Restart arrives; a Start or Restart
arriving during the wait completes the select (cancelling the
remaining sleep) and, with nothing further queued, the very next
observation is a spawn attempt. -/
theorem backoff_wait_interruptible :
    (∀ s : SupM, s.phase = .backoffWait →
        step s (.recvCmd (some .stop))
          = ({ s with phase := .waitForStart .toLoopTop, status := .stopped, pid := none },
             [.statusUpdate .stopped none]))
    ∧ (∀ (s : SupM) (es : List Ev), s.phase = .backoffWait →
        (∀ e ∈ es, isStartEv e = false) →
        Obs.spawnAttempt ∉ (run s (Ev.recvCmd (some .stop) :: es)).2)
    ∧ (∀ (s : SupM) (c : AgentCommand), s.phase = .backoffWait →
        (c = .start ∨ c = .restart) →
        step s (.recvCmd (some c)) = ({ s with phase := .loopTop }, [])
        ∧ (run s [.recvCmd (some c), .tryRecv none]).2 = [.spawnAttempt]) := by
  refine ⟨?_, ?_, ?_⟩
  · intro s h
    obtain ⟨ph, n, st, p⟩ := s
    simp only at h
    subst h
    rfl
  · intro s es h hne
    obtain ⟨ph, n, st, p⟩ := s
    simp only at h
    subst h
    have hph : (SupM.mk (.waitForStart .toLoopTop) n .stopped none).phase
        = .waitForStart .toLoopTop := rfl
    have hfro := waitForStart_frozen es _ _ hph hne
    have hrun : run ⟨.backoffWait, n, st, p⟩ (Ev.recvCmd (some .stop) :: es)
        = ((run ⟨.waitForStart .toLoopTop, n, .stopped, none⟩ es).1,
           [Obs.statusUpdate .stopped none]
             ++ (run ⟨.waitForStart .toLoopTop, n, .stopped, none⟩ es).2) := rfl
    rw [hrun, hfro.1]
    simp
  · intro s c h hc
    obtain ⟨ph, n, st, p⟩ := s
    simp only at h
    subst h
    rcases hc with hc | hc <;> subst hc <;> exact ⟨rfl, rfl⟩

/-- Closed instance of backoff_wait_interruptible: Stop and Start
arriving during a concrete backoff wait. -/
theorem backoff_wait_interruptible_witness :
    step ⟨.backoffWait, 2, .restarting, none⟩ (.recvCmd (some .stop))
        = ({ (⟨.backoffWait, 2, .restarting, none⟩ : SupM) with
              phase := .waitForStart .toLoopTop, status := .stopped, pid := none },
           [.statusUpdate .stopped none])
      ∧ Obs.spawnAttempt ∉
          (run ⟨.backoffWait, 2, .restarting, none⟩ [Ev.recvCmd (some .stop)]).2
      ∧ (run ⟨.backoffWait, 2, .restarting, none⟩
          [.recvCmd (some .start), .tryRecv none]).2 = [.spawnAttempt] :=
  ⟨backoff_wait_interruptible.1 ⟨.backoffWait, 2, .restarting, none⟩ (by decide),
   backoff_wait_interruptible.2.1 ⟨.backoffWait, 2, .restarting, none⟩ [] (by decide)
     (by intro e h; cases h),
   (backoff_wait_interruptible.2.2 ⟨.backoffWait, 2, .restarting, none⟩ .start
     (by decide) (Or.inl rfl)).2⟩

/-- The registry-entry invariant of the spec: pid is Some exactly when
the status is Running or Stopping. -/
def pidStatusOk (st : AgentStatus) (p : Option Nat) : Prop :=
  p.isSome = true ↔ (st = .running ∨ st = .stopping)

theorem step_ok (s : SupM) (e : Ev) (h : pidStatusOk s.status s.pid) :
    pidStatusOk (step s e).1.status (step s e).1.pid
    ∧ ∀ (st : AgentStatus) (p : Option Nat),
        Obs.statusUpdate st p ∈ (step s e).2 → pidStatusOk st p := by
  obtain ⟨ph, n, st0, p0⟩ := s
  cases e with
  | tryRecv c =>
    rcases c with _ | c
    all_goals try cases c
    all_goals rcases ph with _ | _ | pid | _ | _ | k | _
    all_goals try cases k
    all_goals simp_all [step, pidStatusOk]
  | spawnOk q =>
    rcases ph with _ | _ | pid | _ | _ | k | _
    all_goals try cases k
    all_goals simp_all [step, pidStatusOk]
  | spawnErr =>
    rcases ph with _ | _ | pid | _ | _ | k | _
    all_goals try cases k
    all_goals simp_all [step, pidStatusOk]
  | exited b =>
    cases b
    all_goals rcases ph with _ | _ | pid | _ | _ | k | _
    all_goals try cases k
    all_goals simp_all [step, pidStatusOk]
  | recvCmd c =>
    rcases c with _ | c
    all_goals try cases c
    all_goals rcases ph with _ | _ | pid | _ | _ | k | _
    all_goals try cases k
    all_goals simp_all [step, pidStatusOk]
    all_goals intro st p hp
    all_goals rcases hp with ⟨h1, h2⟩ | ⟨h1, h2⟩ <;> subst h1 <;> subst h2 <;> simp
  | elapsedGt60 b =>
    cases b
    all_goals rcases ph with _ | _ | pid | _ | _ | k | _
    all_goals try cases k
    all_goals simp_all [step, pidStatusOk]
  | sleepDone =>
    rcases ph with _ | _ | pid | _ | _ | k | _
    all_goals try cases k
    all_goals simp_all [step, pidStatusOk]

theorem run_ok (es : List Ev) :
    ∀ s : SupM, pidStatusOk s.status s.pid →
      pidStatusOk (run s es).1.status (run s es).1.pid
      ∧ ∀ (st : AgentStatus) (p : Option Nat),
          Obs.statusUpdate st p ∈ (run s es).2 → pidStatusOk st p := by
  induction es with
  | nil => intro s h; exact ⟨h, by simp [run]⟩
  | cons e es ih =>
    intro s h
    have h1 := step_ok s e h
    have h2 := ih (step s e).1 h1.1
    refine ⟨by simpa [run] using h2.1, ?_⟩
    intro st p hmem
    simp only [run, List.mem_append] at hmem
    rcases hmem with hmem | hmem
    · exact h1.2 st p hmem
    · exact h2.2 st p hmem

/-- C5: starting from registration (status Starting, pid None), every
status update the supervisor publishes, and the registry entry after
any event trace, carries pid = Some exactly when the status is Running
or Stopping; and a successful spawn always publishes Running together
with Some pid. -/
theorem pid_status_invariant :
    (∀ (es : List Ev) (st : AgentStatus) (p : Option Nat),
        Obs.statusUpdate st p ∈ (run initSup es).2 →
        (p.isSome = true ↔ (st = .running ∨ st = .stopping)))
    ∧ (∀ es : List Ev,
        ((run initSup es).1.pid.isSome = true
          ↔ ((run initSup es).1.status = .running ∨ (run initSup es).1.status = .stopping)))
    ∧ (∀ (s : SupM) (pid : Nat), s.phase = .spawning →
        step s (.spawnOk pid)
          = ({ s with phase := .monitor pid, status := .running, pid := some pid },
             [.statusUpdate .running (some pid)])) := by
  have hinit : pidStatusOk initSup.status initSup.pid := by
    simp [initSup, pidStatusOk]
  refine ⟨?_, ?_, ?_⟩
  · intro es st p hmem
    exact (run_ok es initSup hinit).2 st p hmem
  · intro es
    exact (run_ok es initSup hinit).1
  · intro s pid h
    obtain ⟨ph, n, st, p⟩ := s
    simp only at h
    subst h
    rfl

/-- Closed instance of pid_status_invariant: the Running update
published by a concrete spawn carries a Some pid, and the spawn step
itself publishes exactly that update. -/
theorem pid_status_invariant_witness :
    ((some 2 : Option Nat).isSome = true
        ↔ (AgentStatus.running = .running ∨ AgentStatus.running = .stopping))
      ∧ step ⟨.spawning, 0, .starting, none⟩ (.spawnOk 2)
        = ({ (⟨.spawning, 0, .starting, none⟩ : SupM) with
              phase := .monitor 2, status := .running, pid := some 2 },
           [.statusUpdate .running (some 2)]) :=
  ⟨pid_status_invariant.1 [.tryRecv none, .spawnOk 2] .running (some 2) (by decide),
   pid_status_invariant.2.2 ⟨.spawning, 0, .starting, none⟩ 2 (by decide)⟩

/-- state.rs: struct AgentState.  The tokio command-channel sender `tx`
is modelled as an opaque handle (Option Nat); the Instant fields
(`uptime`) are monotonic timestamps in whole seconds. -/
structure AgentState where
  id : String
  fleet_id : String
  port : Nat
  ipv6 : Option String
  pid : Option Nat
  status : AgentStatus
  uptime : Nat
  tx : Option Nat
deriving DecidableEq, Repr

/-- Effect of agent.rs update_status (lines 276-277) on the entry it
finds: only the status and pid fields are assigned. -/
def setStatus (a : AgentState) (st : AgentStatus) (p : Option Nat) : AgentState :=
  { a with status := st, pid := p }

/-- state.rs: FleetState, the shared HashMap from agent id to
AgentState, modelled as its lookup function. -/
def FleetMap : Type := String → Option AgentState

/-- agent.rs AgentSupervisor::update_status (lines 273-279): under the
store lock, get_mut on this supervisor's agent id; when the entry is
present its status and pid fields are assigned; when it is absent
nothing happens and no error is reported. -/
def update_status (m : FleetMap) (id : String) (st : AgentStatus) (p : Option Nat) :
    FleetMap :=
  fun k => if k = id then (m k).map (fun a => setStatus a st p) else m k

/-- agent.rs spawn_agent registration (lines 291-307): the entry
inserted into the registry before the supervisor starts; `now` is the
Instant::now() read there, stored in the uptime field. -/
def registerAgent (fleet_id id : String) (ipv6 : Option String) (port : Nat)
    (now : Nat) (tx : Option Nat) : AgentState :=
  { id := id, fleet_id := fleet_id, port := port, ipv6 := ipv6,
    pid := none, status := .starting, uptime := now, tx := tx }

/-- state.rs impl Serialize for AgentState (line 55): the serialized
uptime_secs field is uptime.elapsed().as_secs(), i.e. the time of
serialization minus the stored uptime Instant. -/
def uptime_secs (a : AgentState) (now : Nat) : Nat := now - a.uptime

/-- C10: update_status changes only the status and pid fields of the
entry whose key is the given id; every other key reads unchanged, and
when no entry with that id exists the whole map is unchanged. -/
theorem update_status_frame :
    (∀ (m : FleetMap) (id : String) (st : AgentStatus) (p : Option Nat) (a : AgentState),
        m id = some a →
        update_status m id st p id = some (setStatus a st p)
        ∧ (setStatus a st p).id = a.id
        ∧ (setStatus a st p).fleet_id = a.fleet_id
        ∧ (setStatus a st p).port = a.port
        ∧ (setStatus a st p).ipv6 = a.ipv6
        ∧ (setStatus a st p).uptime = a.uptime
        ∧ (setStatus a st p).tx = a.tx
        ∧ (setStatus a st p).status = st
        ∧ (setStatus a st p).pid = p)
    ∧ (∀ (m : FleetMap) (id k : String) (st : AgentStatus) (p : Option Nat),
        k ≠ id → update_status m id st p k = m k)
    ∧ (∀ (m : FleetMap) (id : String) (st : AgentStatus) (p : Option Nat),
        m id = none → update_status m id st p = m) := by
  refine ⟨?_, ?_, ?_⟩
  · intro m id st p a h
    refine ⟨?_, rfl, rfl, rfl, rfl, rfl, rfl, rfl, rfl⟩
    simp [update_status, h]
  · intro m id k st p h
    simp [update_status, h]
  · intro m id st p h
    funext k
    by_cases hk : k = id
    · subst hk
      simp [update_status, h]
    · simp [update_status, hk]

/-- A concrete one-entry registry for the update_status instances. -/
def sampleAgent : AgentState :=
  { id := "fleet-local-0", fleet_id := "fleet-local", port := 20000,
    ipv6 := none, pid := none, status := .starting, uptime := 0, tx := some 1 }

/-- A concrete registry holding only sampleAgent. -/
def sampleMap : FleetMap :=
  fun k => if k = "fleet-local-0" then some sampleAgent else none

/-- Closed instance of update_status_frame on a concrete one-entry
registry: the keyed entry gets the new status and pid with every other
field kept, a different key reads unchanged, and updating a missing key
leaves the map untouched. -/
theorem update_status_frame_witness :
    (update_status sampleMap "fleet-local-0" .running (some 5) "fleet-local-0"
        = some (setStatus sampleAgent .running (some 5))
      ∧ (setStatus sampleAgent .running (some 5)).id = sampleAgent.id
      ∧ (setStatus sampleAgent .running (some 5)).fleet_id = sampleAgent.fleet_id
      ∧ (setStatus sampleAgent .running (some 5)).port = sampleAgent.port
      ∧ (setStatus sampleAgent .running (some 5)).ipv6 = sampleAgent.ipv6
      ∧ (setStatus sampleAgent .running (some 5)).uptime = sampleAgent.uptime
      ∧ (setStatus sampleAgent .running (some 5)).tx = sampleAgent.tx
      ∧ (setStatus sampleAgent .running (some 5)).status = .running
      ∧ (setStatus sampleAgent .running (some 5)).pid = some 5)
    ∧ update_status sampleMap "fleet-local-0" .running (some 5) "other" = sampleMap "other"
    ∧ update_status sampleMap "absent" .running (some 5) = sampleMap :=
  ⟨update_status_frame.1 sampleMap "fleet-local-0" .running (some 5) sampleAgent (by decide),
   update_status_frame.2.1 sampleMap "fleet-local-0" "other" .running (some 5) (by decide),
   update_status_frame.2.2 sampleMap "absent" .running (some 5) (by decide)⟩

/-- C8, counterexample: an agent registered at time 0 whose worker is
respawned at time 100 (the respawn writes only status and pid into the
entry, agent.rs line 197, never the uptime field) reports
uptime_secs = 110 when serialized at time 110 — not the 10 seconds
elapsed since the current run began at time 100. -/
theorem uptime_measures_registration_cex :
    uptime_secs
        (setStatus (registerAgent "fleet-local" "fleet-local-0" none 20000 0 (some 1))
          .running (some 42)) 110 = 110
    ∧ (110 : Nat) ≠ 110 - 100 := by
  decide

/-- C8, amended: uptime_secs equals the integer seconds since the
agent was registered: registration stores the current instant in the
uptime field, and no status update (in particular no respawn) ever
modifies that field, so serialization always reports time since
registration. -/
theorem uptime_since_registration :
    (∀ (f i : String) (v6 : Option String) (port now : Nat) (tx : Option Nat) (t : Nat),
        uptime_secs (registerAgent f i v6 port now tx) t = t - now)
    ∧ (∀ (a : AgentState) (st : AgentStatus) (p : Option Nat),
        (setStatus a st p).uptime = a.uptime
        ∧ ∀ t : Nat, uptime_secs (setStatus a st p) t = uptime_secs a t) := by
  exact ⟨fun _ _ _ _ _ _ _ => rfl, fun _ _ _ => ⟨rfl, fun _ => rfl⟩⟩

/-- Ordering of agent records by their id string. -/
def idLe (a b : AgentState) : Prop := a.id ≤ b.id

instance : DecidableRel idLe :=
  fun a b => inferInstanceAs (Decidable (a.id ≤ b.id))

instance : IsTotal AgentState idLe :=
  ⟨fun a b => le_total a.id b.id⟩

instance : IsTrans AgentState idLe :=
  ⟨fun _ _ _ h h' => le_trans h h'⟩

/-- Modelled from the spec: the repository source under src/ contains
no StatusAPI / snapshot implementation (state.rs only defines the
FleetState map type); per spec section 4.3/6 the status query returns a
copy of the registry entries sorted by agent id.  The registry content
is taken as the (unordered) list of its entries. -/
def snapshot (m : List AgentState) : List AgentState :=
  List.insertionSort idLe m

/-- The registry entry of agent "fleet-0". -/
def fleet0Agent : AgentState :=
  { id := "fleet-0", fleet_id := "fleet", port := 20000,
    ipv6 := none, pid := none, status := .starting, uptime := 0, tx := some 1 }

/-- The registry entry of agent "fleet-1". -/
def fleet1Agent : AgentState :=
  { id := "fleet-1", fleet_id := "fleet", port := 20100,
    ipv6 := none, pid := none, status := .starting, uptime := 0, tx := some 2 }

/-- C7: the snapshot is always sorted by agent id and is a copy (a
permutation) of the registry entries, whatever order they are stored
in; in particular, with agents "fleet-0" and "fleet-1" registered in
either order, "fleet-0" always precedes "fleet-1". -/
theorem snapshot_sorted_by_id :
    (∀ m : List AgentState, List.Sorted idLe (snapshot m))
    ∧ (∀ m : List AgentState, List.Perm (snapshot m) m)
    ∧ snapshot [fleet1Agent, fleet0Agent] = [fleet0Agent, fleet1Agent]
    ∧ snapshot [fleet0Agent, fleet1Agent] = [fleet0Agent, fleet1Agent] := by
  have h01 : idLe fleet0Agent fleet1Agent := by
    show ("fleet-0" : String) ≤ "fleet-1"
    rw [String.le_iff_toList_le]
    decide
  have h10 : ¬ idLe fleet1Agent fleet0Agent := by
    show ¬ ("fleet-1" : String) ≤ "fleet-0"
    rw [String.le_iff_toList_le]
    decide
  refine ⟨fun m => List.sorted_insertionSort idLe m,
          fun m => List.perm_insertionSort idLe m, ?_, ?_⟩
  · simp [snapshot, List.insertionSort, List.orderedInsert, h10]
  · simp [snapshot, List.insertionSort, List.orderedInsert, h01]

/-- A single provisioning-relevant filesystem operation; paths are
component lists relative to project_root. -/
inductive FsOp
  | mkdirAll (path : List String)
  | setPerms (path : List String) (mode : Nat)
  | writeFile (path : List String)
deriving DecidableEq, Repr

/-- The per-agent private config subdirectory
.fleets/<agent_id>/.openclaw (agent.rs lines 18-19, main.rs 257-258). -/
def configDir (agent_id : String) : List String :=
  [".fleets", agent_id, ".openclaw"]

/-- The per-agent config file .fleets/<agent_id>/.openclaw/openclaw.json
(agent.rs line 27, main.rs line 262). -/
def configFilePath (agent_id : String) : List String :=
  configDir agent_id ++ ["openclaw.json"]

/-- agent.rs ensure_config (lines 13-88): the filesystem operations in
program order — create the config dir, chmod it to 0o700, and, when the
config file does not already exist, write it (the generated JSON
content is elided: only the operation order matters for this
invariant). -/
def ensure_config_ops (agent_id : String) (config_exists : Bool) : List FsOp :=
  [.mkdirAll (configDir agent_id), .setPerms (configDir agent_id) 0o700]
    ++ if config_exists then [] else [.writeFile (configFilePath agent_id)]

/-- main.rs spawn_agent provisioning prologue (lines 257-279): create
the config dir and, when the config file does not already exist, write
it; no permissions are ever set on this path. -/
def main_spawn_provision_ops (agent_id : String) (config_exists : Bool) : List FsOp :=
  [.mkdirAll (configDir agent_id)]
    ++ if config_exists then [] else [.writeFile (configFilePath agent_id)]

/-- Scans an operation list in order: true when no write of `file`
occurs before a chmod of `dir` to owner-only 0o700. -/
def permsBeforeWrite (dir file : List String) : List FsOp → Bool
  | [] => true
  | .writeFile p :: rest =>
      if p = file then false else permsBeforeWrite dir file rest
  | .setPerms d m :: rest =>
      if d = dir ∧ m = 0o700 then true else permsBeforeWrite dir file rest
  | _ :: rest => permsBeforeWrite dir file rest

/-- C9, counterexample: on the one-shot spawn path of main.rs, first
provisioning of agent "agent-0" writes the config file, yet no
owner-only chmod of the config subdirectory precedes the write (none
occurs at all). -/
theorem perms_missing_on_main_path :
    permsBeforeWrite (configDir "agent-0") (configFilePath "agent-0")
        (main_spawn_provision_ops "agent-0" false) = false
    ∧ FsOp.writeFile (configFilePath "agent-0")
        ∈ main_spawn_provision_ops "agent-0" false := by
  decide

/-- C9, amended: on the AgentSupervisor provisioning path
(ensure_config), the config subdirectory is always chmod-ed to
owner-only 0o700 before any write of the config file; the one-shot
spawn path in main.rs creates the directory and writes the file without
setting owner-only permissions. -/
theorem perms_before_write_on_ensure_config :
    ∀ (agent_id : String) (b : Bool),
      permsBeforeWrite (configDir agent_id) (configFilePath agent_id)
        (ensure_config_ops agent_id b) = true := by
  intro a b
  cases b <;> simp [ensure_config_ops, permsBeforeWrite]
